import Mathlib

/-!
Shallow embedding of the GLIF2NEST neuron models
(src/GlifModel/glif_lif.cpp and src/GlifModel/glif_lif_psc.cpp).

Numeric state is modelled over an arbitrary linear ordered field `F`
(instantiated with `ℚ` for concrete evaluation and with `ℝ` where the
transcendental calibration formulas are stated).  The C library function
`std::exp` is modelled by an explicit function parameter `expf : F → F`
(instantiated with `Real.exp` where the claims speak about the exponential),
and the externally defined NEST propagators `propagator_31`/`propagator_32`
(from libnestutil, not part of this repository) are passed as abstract
function parameters.  The NEST `RingBuffer` drain `get_value(lag)` is
modelled by handing the drained scalar(s) for the current lag to the step
function as an input.
-/

namespace allen

/-- Sub-step spike-time interpolation used by both variants
(glif_lif.cpp line 221, glif_lif_psc.cpp line 306):
`(1 - (th_inf - v_old)/(V_m - v_old)) * resolution_ms`. -/
def spike_offset {F : Type} [LinearOrderedField F] (th v_old v_new res : F) : F :=
  (1 - (th - v_old) / (v_new - v_old)) * res

namespace glif_lif

/-- Parameters of allen::glif_lif (glif_lif.h / glif_lif.cpp). -/
structure Parameters_ (F : Type) where
  th_inf_ : F
  G_ : F
  E_l_ : F
  C_m_ : F
  t_ref_ : F
  V_reset_ : F
  V_dynamics_method_ : String
deriving DecidableEq

/-- Dynamic state of allen::glif_lif. -/
structure State_ (F : Type) where
  V_m_ : F
  I_ : F
deriving DecidableEq

/-- Internal variables of allen::glif_lif. -/
structure Variables_ (F : Type) where
  t_ref_remaining_ : F
  t_ref_total_ : F
deriving DecidableEq

variable {F : Type} [LinearOrderedField F]

/-- glif_lif::calibrate (glif_lif.cpp lines 164-172):
`t_ref_remaining_ = 0.0; t_ref_total_ = t_ref_ * 1.0e-03` (ms to s). -/
def calibrate (P : Parameters_ F) : Variables_ F :=
  { t_ref_remaining_ := 0
    t_ref_total_ := P.t_ref_ * (1 / 1000) }

/-- The dictionary argument of glif_lif::Parameters_::set: each key is
optionally present; `updateValue` assigns the target iff the key is present. -/
structure Dictionary (F : Type) where
  V_th : Option F := none
  g : Option F := none
  E_L : Option F := none
  C_m : Option F := none
  t_ref : Option F := none
  V_reset : Option F := none
  V_dynamics_method : Option String := none
deriving DecidableEq

/-- glif_lif::Parameters_::set (glif_lif.cpp lines 83-94): a sequence of
`updateValue` calls with no validation of any kind; it cannot fail. -/
def Parameters_.set (p : Parameters_ F) (d : Dictionary F) :
    Except String (Parameters_ F) :=
  Except.ok
    { th_inf_ := d.V_th.getD p.th_inf_
      G_ := d.g.getD p.G_
      E_l_ := d.E_L.getD p.E_l_
      C_m_ := d.C_m.getD p.C_m_
      t_ref_ := d.t_ref.getD p.t_ref_
      V_reset_ := d.V_reset.getD p.V_reset_
      V_dynamics_method_ := d.V_dynamics_method.getD p.V_dynamics_method_ }

/-- The integrating-branch voltage computation of glif_lif::update
(glif_lif.cpp lines 204-213).  `dt` is the resolution converted to seconds.
If the method string is neither recognized value, `S_.V_m_` is not assigned
and keeps its previous value. -/
def voltage_dynamics (expf : F → F) (P : Parameters_ F) (dt : F) (S : State_ F) : F :=
  if P.V_dynamics_method_ == "linear_forward_euler" then
    S.V_m_ + dt * (S.I_ - P.G_ * (S.V_m_ - P.E_l_)) / P.C_m_
  else if P.V_dynamics_method_ == "linear_exact" then
    let tau := P.G_ / P.C_m_
    S.V_m_ * expf (-dt * tau) +
      ((S.I_ + P.G_ * P.E_l_) / P.C_m_) * (1 - expf (-tau * dt)) / tau
  else S.V_m_

/-- The voltage/refractory part of one lag of glif_lif::update
(glif_lif.cpp lines 188-227).  `res` is `Time::get_resolution().get_ms()`;
`dt = res * 1.0e-03` (line 182).  Returns the new `V_m_`, the new internal
variables and the emitted spike offset (if any).  Within the loop the local
`v_old` always equals `S_.V_m_` at the start of the iteration (it is
initialized to it and re-assigned to it at the end of every iteration), so
it is read from the state here. -/
def update_core (expf : F → F) (P : Parameters_ F) (res : F)
    (V : Variables_ F) (S : State_ F) : F × Variables_ F × Option F :=
  let dt := res * (1 / 1000)
  let v_old := S.V_m_
  if V.t_ref_remaining_ > 0 then
    let r := V.t_ref_remaining_ - dt
    if r ≤ 0 then (P.V_reset_, { V with t_ref_remaining_ := r }, none)
    else (v_old, { V with t_ref_remaining_ := r }, none)
  else
    let vm := voltage_dynamics expf P dt S
    if vm > P.th_inf_ then
      (vm, { V with t_ref_remaining_ := V.t_ref_total_ },
        some (spike_offset P.th_inf_ v_old vm res))
    else (vm, V, none)

/-- One full lag of glif_lif::update: the voltage/refractory logic followed by
the unconditional drain of the current buffer into `S_.I_`
(glif_lif.cpp line 229); `c` is the value drained at this lag. -/
def update_step (expf : F → F) (P : Parameters_ F) (res : F)
    (V : Variables_ F) (S : State_ F) (c : F) :
    State_ F × Variables_ F × Option F :=
  let r := update_core expf P res V S
  ({ V_m_ := r.1, I_ := c }, r.2.1, r.2.2)

/-- One lag as a state transformer (state only, spike output dropped). -/
def step (expf : F → F) (P : Parameters_ F) (res : F)
    (sv : State_ F × Variables_ F) (c : F) : State_ F × Variables_ F :=
  let r := update_step expf P res sv.2 sv.1 c
  (r.1, r.2.1)

/-- The per-lag observables of one lag: the recorded membrane voltage and the
emitted spike offset (if any). -/
def out (expf : F → F) (P : Parameters_ F) (res : F)
    (sv : State_ F × Variables_ F) (c : F) : F × Option F :=
  let r := update_step expf P res sv.2 sv.1 c
  (r.1.V_m_, r.2.2)

/-- Iterating glif_lif::update over a list of drained current values. -/
def run (expf : F → F) (P : Parameters_ F) (res : F) :
    State_ F × Variables_ F → List F → State_ F × Variables_ F
  | sv, [] => sv
  | sv, c :: cs => run expf P res (step expf P res sv c) cs

/-- The observable trajectory (voltage and spike output per lag) of
glif_lif::update over a list of drained current values. -/
def trace (expf : F → F) (P : Parameters_ F) (res : F) :
    State_ F × Variables_ F → List F → List (F × Option F)
  | _, [] => []
  | sv, c :: cs =>
    out expf P res sv c :: trace expf P res (step expf P res sv c) cs

end glif_lif

namespace glif_lif_psc

/-- Parameters of allen::glif_lif_psc (glif_lif_psc.h / glif_lif_psc.cpp). -/
structure Parameters_ (F : Type) where
  th_inf_ : F
  G_ : F
  E_l_ : F
  C_m_ : F
  t_ref_ : F
  V_reset_ : F
  tau_syn_ : List F
  V_dynamics_method_ : String
  has_connections_ : Bool
deriving DecidableEq

/-- glif_lif_psc::Parameters_::n_receptors_(): `tau_syn_.size()`. -/
def Parameters_.n_receptors_ (p : Parameters_ F) : ℕ :=
  p.tau_syn_.length

/-- Dynamic state of allen::glif_lif_psc: membrane voltage, injected current
and the two per-receptor synaptic filter state vectors `y1_`, `y2_`. -/
structure State_ (F : Type) where
  V_m_ : F
  I_ : F
  y1_ : List F
  y2_ : List F
deriving DecidableEq

/-- Internal variables of allen::glif_lif_psc, produced by calibrate. -/
structure Variables_ (F : Type) where
  t_ref_remaining_ : F
  t_ref_total_ : F
  method_ : ℤ
  P33_ : F
  P30_ : F
  P11_ : List F
  P21_ : List F
  P22_ : List F
  P31_ : List F
  P32_ : List F
  PSCInitialValues_ : List F
deriving DecidableEq

variable {F : Type} [LinearOrderedField F]

/-- std::vector::resize semantics: truncate to `n`, padding with zeros. -/
def vresize (l : List F) (n : ℕ) : List F :=
  l.take n ++ List.replicate (n - l.length) 0

/-- glif_lif_psc::calibrate (glif_lif_psc.cpp lines 195-245).
`h` is the resolution in ms; `expf` models std::exp, `e` models numerics::e
and `p31`, `p32` model the external libnestutil functions `propagator_31`
and `propagator_32` (argument order: tau_syn, Tau_, C_m_, h).
Per-array loop writes are rendered as maps over `tau_syn_`.
Returns the new internal variables together with the state whose `y1_`/`y2_`
vectors have been resized to the receptor count. -/
def calibrate (expf : F → F) (e : F) (p31 p32 : F → F → F → F → F)
    (P : Parameters_ F) (S : State_ F) (h : F) : Variables_ F × State_ F :=
  let Tau := P.C_m_ / P.G_
  let P33 := expf (-h / Tau)
  ({ t_ref_remaining_ := 0
     t_ref_total_ := P.t_ref_
     method_ := if P.V_dynamics_method_ == "linear_exact" then 1 else 0
     P33_ := P33
     P30_ := 1 / P.C_m_ * (1 - P33) * Tau
     P11_ := P.tau_syn_.map fun tau_s => expf (-h / tau_s)
     P22_ := P.tau_syn_.map fun tau_s => expf (-h / tau_s)
     P21_ := P.tau_syn_.map fun tau_s => h * expf (-h / tau_s)
     P31_ := P.tau_syn_.map fun tau_s => p31 tau_s Tau P.C_m_ h
     P32_ := P.tau_syn_.map fun tau_s => p32 tau_s Tau P.C_m_ h
     PSCInitialValues_ := P.tau_syn_.map fun tau_s => 1 * e / tau_s },
   { S with y1_ := vresize S.y1_ P.n_receptors_
            y2_ := vresize S.y2_ P.n_receptors_ })

/-- The dictionary argument of glif_lif_psc::Parameters_::set. -/
structure Dictionary (F : Type) where
  V_th : Option F := none
  g : Option F := none
  E_L : Option F := none
  C_m : Option F := none
  t_ref : Option F := none
  V_reset : Option F := none
  tau_syn : Option (List F) := none
  V_dynamics_method : Option String := none
deriving DecidableEq

/-- glif_lif_psc::Parameters_::set (glif_lif_psc.cpp lines 93-124),
transcribed statement by statement:
lines 96-101 update the scalars; line 102 is a first
`updateValue(d, "tau_syn", tau_syn_)` that already overwrites `tau_syn_`;
line 103 updates the method string; line 105 then records
`old_n_receptors = n_receptors_()` (the size *after* line 102); line 106
re-runs the same `updateValue` inside the `if`, and the guard of line 108
compares the (unchanged) new size against `old_n_receptors`; lines 114-121
reject non-positive time constants.  Thrown `BadProperty` exceptions are
modelled as `Except.error`. -/
def Parameters_.set (p : Parameters_ F) (d : Dictionary F) :
    Except String (Parameters_ F) :=
  let p1 : Parameters_ F :=
    { p with
      th_inf_ := d.V_th.getD p.th_inf_
      G_ := d.g.getD p.G_
      E_l_ := d.E_L.getD p.E_l_
      C_m_ := d.C_m.getD p.C_m_
      t_ref_ := d.t_ref.getD p.t_ref_
      V_reset_ := d.V_reset.getD p.V_reset_
      tau_syn_ := d.tau_syn.getD p.tau_syn_
      V_dynamics_method_ := d.V_dynamics_method.getD p.V_dynamics_method_ }
  let old_n_receptors := p1.n_receptors_
  match d.tau_syn with
  | none => Except.ok p1
  | some v =>
    let p2 : Parameters_ F := { p1 with tau_syn_ := v }
    if p2.n_receptors_ ≠ old_n_receptors ∧ p2.has_connections_ = true then
      Except.error
        "The neuron has connections, therefore the number of ports cannot be reduced."
    else if v.any fun x => decide (x ≤ 0) then
      Except.error "All synaptic time constants must be strictly positive."
    else Except.ok p2

/-- glif_lif_psc::handles_test_event(SpikeEvent&, rport)
(glif_lif_psc.cpp lines 341-353): rejects receptor indices outside
`[1, n_receptors_()]`, otherwise records `has_connections_ = true`. -/
def handles_test_event (P : Parameters_ F) (receptor_type : ℤ) :
    Except String (Parameters_ F × ℤ) :=
  if receptor_type ≤ 0 ∨ (P.n_receptors_ : ℤ) < receptor_type then
    Except.error "IncompatibleReceptorType"
  else
    Except.ok ({ P with has_connections_ := true }, receptor_type)

/-- The body of the alpha-shaped PSC loop for one receptor
(glif_lif_psc.cpp lines 320-326), kept in source order:
`y2_[i] = P21_[i]*y1_[i] + P22_[i]*y2_[i]` (reading the *old* `y1_[i]`),
then `y1_[i] *= P11_[i]`, then
`y1_[i] += PSCInitialValues_[i] * spikes_[i].get_value(lag)`.
Returns the new `(y1_[i], y2_[i])`. -/
def alpha_psc_step (p11 p21 p22 psc y1 y2 s : F) : F × F :=
  let y2n := p21 * y1 + p22 * y2
  let y1n := p11 * y1
  let y1n2 := y1n + psc * s
  (y1n2, y2n)

/-- The voltage/refractory part of one lag of glif_lif_psc::update
(glif_lif_psc.cpp lines 266-313).  `res` is the resolution in ms and is also
the step size `dt` (line 257).  Returns the new `V_m_`, the new internal
variables and the emitted spike offset (if any).  As in the plain variant,
the loop-local `v_old` equals `S_.V_m_` at the start of every iteration. -/
def update_core (P : Parameters_ F) (res : F) (V : Variables_ F) (S : State_ F) :
    F × Variables_ F × Option F :=
  let dt := res
  let v_old := S.V_m_
  if V.t_ref_remaining_ > 0 then
    let r := V.t_ref_remaining_ - dt
    if r ≤ 0 then (P.V_reset_, { V with t_ref_remaining_ := r }, none)
    else (v_old, { V with t_ref_remaining_ := r }, none)
  else
    let vbase : F :=
      if V.method_ = 0 then v_old + dt * (S.I_ - P.G_ * (v_old - P.E_l_)) / P.C_m_
      else if V.method_ = 1 then v_old * V.P33_ + (S.I_ + P.G_ * P.E_l_) * V.P30_
      else v_old
    let vm := vbase +
      ((List.range P.n_receptors_).map fun i =>
        V.P31_.getD i 0 * S.y1_.getD i 0 + V.P32_.getD i 0 * S.y2_.getD i 0).sum
    if vm > P.th_inf_ then
      (vm, { V with t_ref_remaining_ := V.t_ref_total_ },
        some (spike_offset P.th_inf_ v_old vm res))
    else (vm, V, none)

/-- One full lag of glif_lif_psc::update: the voltage/refractory logic
(lines 266-313), then — unconditionally, also on refractory steps — the
alpha-shaped PSC loop over all receptors (lines 316-328), then the drain of
the current buffer into `S_.I_` (line 330).  `spk` holds the spike values
drained from the per-receptor spike buffers at this lag, `c` the drained
current value. -/
def update_step (P : Parameters_ F) (res : F) (V : Variables_ F) (S : State_ F)
    (spk : List F) (c : F) : State_ F × Variables_ F × Option F :=
  let r := update_core P res V S
  let ys := (List.range P.n_receptors_).map fun i =>
    alpha_psc_step (V.P11_.getD i 0) (V.P21_.getD i 0) (V.P22_.getD i 0)
      (V.PSCInitialValues_.getD i 0) (S.y1_.getD i 0) (S.y2_.getD i 0)
      (spk.getD i 0)
  ({ V_m_ := r.1, I_ := c, y1_ := ys.map Prod.fst, y2_ := ys.map Prod.snd },
   r.2.1, r.2.2)

end glif_lif_psc

/-! Concrete instances used for closed-form evaluations. -/

/-- A concrete plain-variant parameter set: forward Euler, zero conductance
(so the voltage is driven only by the injected current), threshold 1 mV,
refractory duration 1 ms, reset potential 0. -/
def exP : glif_lif.Parameters_ ℚ :=
  { th_inf_ := 1, G_ := 0, E_l_ := 0, C_m_ := 1, t_ref_ := 1, V_reset_ := 0,
    V_dynamics_method_ := "linear_forward_euler" }

/-- The state of `exP` at simulation start: `V_m_ = 0`, `I_ = 0`, and the
variables produced by glif_lif::calibrate. -/
def exSV : glif_lif.State_ ℚ × glif_lif.Variables_ ℚ :=
  ({ V_m_ := 0, I_ := 0 }, glif_lif.calibrate exP)

/-- Drained current values: a strong pulse at lag 0 (which raises the voltage
to 2 > threshold at lag 1, with step size 0.3 ms i.e. dt = 3/10000 s),
then silence.  The refractory period of 1 ms is not a multiple of 0.3 ms. -/
def exCurrents : List ℚ :=
  [20000 / 3, 0, 0, 0, 0, 0]

/-- A concrete plain-variant configuration whose integrating step reproduces
the previous voltage exactly while sitting above threshold:
`v_old = 2 > th_inf = 1` and the Euler drive `I - G*(v_old - E_l) = 0`. -/
def exP5 : glif_lif.Parameters_ ℚ :=
  { th_inf_ := 1, G_ := 1, E_l_ := 0, C_m_ := 1, t_ref_ := 1, V_reset_ := 0,
    V_dynamics_method_ := "linear_forward_euler" }

/-- State for `exP5`: above-threshold voltage with exactly balancing current. -/
def exS5 : glif_lif.State_ ℚ :=
  { V_m_ := 2, I_ := 2 }

/-- Non-refractory variables for `exP5`. -/
def exV5 : glif_lif.Variables_ ℚ :=
  { t_ref_remaining_ := 0, t_ref_total_ := 1 / 1000 }

/-- A concrete psc-variant parameter set (source defaults with two receptors)
that already has connections bound. -/
def exPsc : glif_lif_psc.Parameters_ ℚ :=
  { th_inf_ := 26.5, G_ := 4.6951, E_l_ := -77.4, C_m_ := 99.182,
    t_ref_ := 0.5, V_reset_ := 0, tau_syn_ := [2, 3],
    V_dynamics_method_ := "linear_forward_euler", has_connections_ := true }

/-- A set-status dictionary that only shrinks `tau_syn` from two receptors
to one (a strictly positive time constant). -/
def exShrinkDict : glif_lif_psc.Dictionary ℚ :=
  { tau_syn := some [2] }

/-- A set-status dictionary that only sets an unrecognized dynamics method. -/
def exBogusDict : glif_lif.Dictionary ℚ :=
  { V_dynamics_method := some "bogus" }

/-- Drained current values for the two-run comparison: pulse, spike, then
silence; position 1 is drained at the lag whose following lag is refractory. -/
def exC9 : List ℚ :=
  [20000 / 3, 0, 0, 0]

/-- A concrete single-receptor psc parameter set with a low threshold. -/
def exPscSpiking : glif_lif_psc.Parameters_ ℚ :=
  { th_inf_ := 1 / 10, G_ := 1, E_l_ := 0, C_m_ := 1, t_ref_ := 1 / 2,
    V_reset_ := 0, tau_syn_ := [2],
    V_dynamics_method_ := "linear_forward_euler", has_connections_ := false }

/-- Concrete single-receptor psc internal variables (not refractory). -/
def exVpsc : glif_lif_psc.Variables_ ℚ :=
  { t_ref_remaining_ := 0, t_ref_total_ := 1 / 2, method_ := 0,
    P33_ := 0, P30_ := 0, P11_ := [1 / 2], P21_ := [1 / 10], P22_ := [1 / 2],
    P31_ := [1 / 4], P32_ := [1 / 4], PSCInitialValues_ := [2] }

/-- The same psc internal variables but with half a millisecond of
refractory time remaining. -/
def exVpscRefr : glif_lif_psc.Variables_ ℚ :=
  { exVpsc with t_ref_remaining_ := 1 / 2 }

/-- Concrete single-receptor psc state with non-zero synaptic filter state. -/
def exSpsc : glif_lif_psc.State_ ℚ :=
  { V_m_ := 0, I_ := 0, y1_ := [1], y2_ := [1] }

/-- Formalization, at unit step size, of the claimed limit that the
interpolated spike offset tends to the step size as the threshold crossing
occurs arbitrarily late within the step: crossings whose interpolated
lateness fraction `(th - v_old)/(v_new - v_old)` is close enough to 1
would have to give an offset arbitrarily close to the step size. -/
def spikeOffsetLateLimit : Prop :=
  ∀ ε : ℚ, 0 < ε → ∃ δ : ℚ, 0 < δ ∧
    ∀ th v_old v_new : ℚ, v_old ≤ th → th < v_new →
      1 - δ < (th - v_old) / (v_new - v_old) →
      |spike_offset th v_old v_new 1 - 1| < ε

end allen

/-! Theorems settling the claims. -/

namespace allen

/-- C4: evaluation of glif_lif_psc::Parameters_::set at the failing input.
With `has_connections_ = true` and two receptors, a dictionary that shrinks
`tau_syn` to one receptor is *accepted*: the call returns successfully and
the stored `tau_syn_` has length 1.  The guard of glif_lif_psc.cpp line 108
can never fire because the first `updateValue` at line 102 already
overwrote `tau_syn_` before `old_n_receptors` is read at line 105, so the
claimed rejection does not happen. -/
theorem C4_shrink_is_accepted :
    glif_lif_psc.Parameters_.set exPsc exShrinkDict
        = Except.ok { exPsc with tau_syn_ := [2] }
      ∧ exPsc.has_connections_ = true
      ∧ exPsc.n_receptors_ = 2
      ∧ glif_lif_psc.Parameters_.n_receptors_ { exPsc with tau_syn_ := [2] } = 1 := by
  refine ⟨?_, rfl, rfl, rfl⟩
  simp [glif_lif_psc.Parameters_.set, glif_lif_psc.Parameters_.n_receptors_,
    exPsc, exShrinkDict]

/-- C7 (counterexample): setting the plain variant's dynamics-method string
to the unrecognized value "bogus" is not rejected — Parameters_::set
(glif_lif.cpp lines 83-94) performs no validation and stores the string. -/
theorem C7_bogus_method_accepted :
    glif_lif.Parameters_.set exP exBogusDict
      = Except.ok { exP with V_dynamics_method_ := "bogus" } := rfl

/-- C7 (amended): a dynamics-method string outside
{linear_forward_euler, linear_exact} is accepted silently at parameter-set
time by both variants — the string is stored unvalidated and no failure is
possible from Parameters_::set of the plain variant at all; the psc
variant's calibrate later resolves the stored string to the exact method
iff it is "linear_exact" and to forward Euler otherwise, without error. -/
theorem C7_amended {F : Type} [LinearOrderedField F] :
    (∀ (p : glif_lif.Parameters_ F) (d : glif_lif.Dictionary F),
      glif_lif.Parameters_.set p d
        = Except.ok
          { th_inf_ := d.V_th.getD p.th_inf_
            G_ := d.g.getD p.G_
            E_l_ := d.E_L.getD p.E_l_
            C_m_ := d.C_m.getD p.C_m_
            t_ref_ := d.t_ref.getD p.t_ref_
            V_reset_ := d.V_reset.getD p.V_reset_
            V_dynamics_method_ := d.V_dynamics_method.getD p.V_dynamics_method_ })
    ∧ (∀ (p : glif_lif_psc.Parameters_ F) (s : String),
      glif_lif_psc.Parameters_.set p { V_dynamics_method := some s }
        = Except.ok { p with V_dynamics_method_ := s })
    ∧ (∀ (expf : F → F) (e : F) (p31 p32 : F → F → F → F → F)
        (P : glif_lif_psc.Parameters_ F) (S : glif_lif_psc.State_ F) (h : F),
      (glif_lif_psc.calibrate expf e p31 p32 P S h).1.method_ = 1
        ↔ P.V_dynamics_method_ = "linear_exact") := by
  refine ⟨fun p d => rfl, fun p s => rfl, fun expf e p31 p32 P S h => ?_⟩
  simp only [glif_lif_psc.calibrate]
  constructor
  · intro hm
    by_contra hne
    rw [if_neg (by simpa using hne)] at hm
    exact absurd hm (by decide)
  · intro hm
    rw [if_pos (by simpa using hm)]

/-- C10: glif_lif_psc::calibrate (glif_lif_psc.cpp lines 203-205) resolves
the method flag totally and silently: `method_ = 1` iff the stored
dynamics-method string equals "linear_exact", and `method_ = 0` for every
other string, unrecognized ones included; resolution is a total function,
so no error is ever raised by it. -/
theorem C10_silent_method_resolution {F : Type} [LinearOrderedField F]
    (expf : F → F) (e : F) (p31 p32 : F → F → F → F → F)
    (P : glif_lif_psc.Parameters_ F) (S : glif_lif_psc.State_ F) (h : F) :
    ((glif_lif_psc.calibrate expf e p31 p32 P S h).1.method_ = 1
        ↔ P.V_dynamics_method_ = "linear_exact")
      ∧ ((glif_lif_psc.calibrate expf e p31 p32 P S h).1.method_ = 0
        ↔ P.V_dynamics_method_ ≠ "linear_exact") := by
  simp only [glif_lif_psc.calibrate]
  by_cases hs : P.V_dynamics_method_ = "linear_exact"
  · rw [if_pos (by simpa using hs)]
    simp [hs]
  · rw [if_neg (by simpa using hs)]
    simp [hs]

/-- C1: the alpha-shaped synaptic current filter of glif_lif_psc::update
(lines 316-328) performs, for every receptor, exactly the three assignments
in source order, so that the new `y2_[i]` is computed from the *old*
`y1_[i]`, then `y1_[i]` is decayed by `P11_[i]`, and then
`PSCInitialValues_[i]` times the spike value drained at this lag is added;
and calibrate (lines 228-243) sets the coefficients
`P11_[i] = P22_[i] = exp(-h/tau_i)` (P_syn_self),
`P21_[i] = h * exp(-h/tau_i)` (P_cross_delta) and
`PSCInitialValues_[i] = e / tau_i` (peak normalization). -/
theorem C1_alpha_filter_order_and_coefficients
    (P : glif_lif_psc.Parameters_ ℝ) (V : glif_lif_psc.Variables_ ℝ)
    (S : glif_lif_psc.State_ ℝ) (spk : List ℝ) (c res h : ℝ)
    (p31 p32 : ℝ → ℝ → ℝ → ℝ → ℝ) (S0 : glif_lif_psc.State_ ℝ) :
    ((glif_lif_psc.update_step P res V S spk c).1.y1_
        = (List.range P.n_receptors_).map fun i =>
            V.P11_.getD i 0 * S.y1_.getD i 0
              + V.PSCInitialValues_.getD i 0 * spk.getD i 0)
      ∧ ((glif_lif_psc.update_step P res V S spk c).1.y2_
        = (List.range P.n_receptors_).map fun i =>
            V.P21_.getD i 0 * S.y1_.getD i 0 + V.P22_.getD i 0 * S.y2_.getD i 0)
      ∧ (glif_lif_psc.calibrate Real.exp (Real.exp 1) p31 p32 P S0 h).1.P11_
        = P.tau_syn_.map (fun tau_s => Real.exp (-(h / tau_s)))
      ∧ (glif_lif_psc.calibrate Real.exp (Real.exp 1) p31 p32 P S0 h).1.P22_
        = P.tau_syn_.map (fun tau_s => Real.exp (-(h / tau_s)))
      ∧ (glif_lif_psc.calibrate Real.exp (Real.exp 1) p31 p32 P S0 h).1.P21_
        = P.tau_syn_.map (fun tau_s => h * Real.exp (-(h / tau_s)))
      ∧ (glif_lif_psc.calibrate Real.exp (Real.exp 1) p31 p32 P S0 h).1.PSCInitialValues_
        = P.tau_syn_.map (fun tau_s => Real.exp 1 / tau_s) := by
  refine ⟨?_, ?_, ?_, ?_, ?_, ?_⟩
  · simp [glif_lif_psc.update_step, glif_lif_psc.alpha_psc_step, List.map_map,
      Function.comp]
  · simp [glif_lif_psc.update_step, glif_lif_psc.alpha_psc_step, List.map_map,
      Function.comp]
  · simp [glif_lif_psc.calibrate, neg_div]
  · simp [glif_lif_psc.calibrate, neg_div]
  · simp [glif_lif_psc.calibrate, neg_div]
  · simp [glif_lif_psc.calibrate]

/-- Helper: on a refractory step the plain variant's voltage/refractory core
decrements the counter by `dt = res/1000` and holds or resets the voltage. -/
theorem lif_update_core_refractory {F : Type} [LinearOrderedField F]
    (expf : F → F) (P : glif_lif.Parameters_ F) (res : F)
    (V : glif_lif.Variables_ F) (S : glif_lif.State_ F)
    (h : V.t_ref_remaining_ > 0) :
    glif_lif.update_core expf P res V S
      = if V.t_ref_remaining_ - res * (1 / 1000) ≤ 0 then
          (P.V_reset_,
            { V with t_ref_remaining_ := V.t_ref_remaining_ - res * (1 / 1000) },
            none)
        else
          (S.V_m_,
            { V with t_ref_remaining_ := V.t_ref_remaining_ - res * (1 / 1000) },
            none) := by
  simp only [glif_lif.update_core, if_pos h]

/-- Helper: on a refractory step the psc variant's voltage/refractory core
decrements the counter by `dt = res` and holds or resets the voltage. -/
theorem psc_update_core_refractory {F : Type} [LinearOrderedField F]
    (P : glif_lif_psc.Parameters_ F) (res : F)
    (V : glif_lif_psc.Variables_ F) (S : glif_lif_psc.State_ F)
    (h : V.t_ref_remaining_ > 0) :
    glif_lif_psc.update_core P res V S
      = if V.t_ref_remaining_ - res ≤ 0 then
          (P.V_reset_, { V with t_ref_remaining_ := V.t_ref_remaining_ - res },
            none)
        else
          (S.V_m_, { V with t_ref_remaining_ := V.t_ref_remaining_ - res },
            none) := by
  simp only [glif_lif_psc.update_core, if_pos h]

/-- C2: in both variants, a step taken with `t_ref_remaining_ > 0`
decrements the counter by the step size (res/1000 seconds for the plain
variant, res milliseconds for the psc variant), holds the voltage at the
previous step's value if the decremented counter is still positive, sets it
to the reset potential if the decremented counter reached ≤ 0, and emits no
spike (no voltage integration and no threshold test happens: the voltage is
either the held `v_old` or `V_reset_`, never the integrated value). -/
theorem C2_refractory_state_machine {F : Type} [LinearOrderedField F]
    (expf : F → F) (P : glif_lif.Parameters_ F) (res : F)
    (V : glif_lif.Variables_ F) (S : glif_lif.State_ F) (c : F)
    (Pp : glif_lif_psc.Parameters_ F) (resp : F)
    (Vp : glif_lif_psc.Variables_ F) (Sp : glif_lif_psc.State_ F)
    (spk : List F) (cp : F)
    (h : V.t_ref_remaining_ > 0) (hp : Vp.t_ref_remaining_ > 0) :
    ((glif_lif.update_step expf P res V S c).2.1.t_ref_remaining_
        = V.t_ref_remaining_ - res * (1 / 1000))
      ∧ ((glif_lif.update_step expf P res V S c).2.1.t_ref_remaining_ > 0
        → (glif_lif.update_step expf P res V S c).1.V_m_ = S.V_m_)
      ∧ ((glif_lif.update_step expf P res V S c).2.1.t_ref_remaining_ ≤ 0
        → (glif_lif.update_step expf P res V S c).1.V_m_ = P.V_reset_)
      ∧ (glif_lif.update_step expf P res V S c).2.2 = none
      ∧ ((glif_lif_psc.update_step Pp resp Vp Sp spk cp).2.1.t_ref_remaining_
        = Vp.t_ref_remaining_ - resp)
      ∧ ((glif_lif_psc.update_step Pp resp Vp Sp spk cp).2.1.t_ref_remaining_ > 0
        → (glif_lif_psc.update_step Pp resp Vp Sp spk cp).1.V_m_ = Sp.V_m_)
      ∧ ((glif_lif_psc.update_step Pp resp Vp Sp spk cp).2.1.t_ref_remaining_ ≤ 0
        → (glif_lif_psc.update_step Pp resp Vp Sp spk cp).1.V_m_ = Pp.V_reset_)
      ∧ (glif_lif_psc.update_step Pp resp Vp Sp spk cp).2.2 = none := by
  have h1 := lif_update_core_refractory expf P res V S h
  have h2 := psc_update_core_refractory Pp resp Vp Sp hp
  refine ⟨?_, ?_, ?_, ?_, ?_, ?_, ?_, ?_⟩
  · simp only [glif_lif.update_step]
    rw [h1]
    split <;> rfl
  · simp only [glif_lif.update_step]
    rw [h1]
    split
    · next hc => exact fun hpos => absurd hpos (not_lt.mpr hc)
    · exact fun _ => rfl
  · simp only [glif_lif.update_step]
    rw [h1]
    split
    · exact fun _ => rfl
    · next hc => exact fun hnp => absurd hnp hc
  · simp only [glif_lif.update_step]
    rw [h1]
    split <;> rfl
  · simp only [glif_lif_psc.update_step]
    rw [h2]
    split <;> rfl
  · simp only [glif_lif_psc.update_step]
    rw [h2]
    split
    · next hc => exact fun hpos => absurd hpos (not_lt.mpr hc)
    · exact fun _ => rfl
  · simp only [glif_lif_psc.update_step]
    rw [h2]
    split
    · exact fun _ => rfl
    · next hc => exact fun hnp => absurd hnp hc
  · simp only [glif_lif_psc.update_step]
    rw [h2]
    split <;> rfl

/-- Witness for C2 at a concrete refractory state of each variant. -/
theorem C2_witness :
    ((glif_lif.update_step (F := ℚ) id exP (3 / 10)
        { t_ref_remaining_ := 1 / 1000, t_ref_total_ := 1 / 1000 }
        { V_m_ := 5, I_ := 0 } 7).2.1.t_ref_remaining_
      = (1 / 1000 : ℚ) - (3 / 10) * (1 / 1000))
    ∧ (glif_lif_psc.update_step (F := ℚ) exPscSpiking (1 / 10) exVpscRefr
        exSpsc [1] 7).2.1.t_ref_remaining_ = exVpscRefr.t_ref_remaining_ - 1 / 10 := by
  have hmain := C2_refractory_state_machine (F := ℚ) id exP (3 / 10)
    { t_ref_remaining_ := 1 / 1000, t_ref_total_ := 1 / 1000 }
    { V_m_ := 5, I_ := 0 } 7 exPscSpiking (1 / 10) exVpscRefr exSpsc [1] 7
    (by norm_num) (by norm_num [exVpscRefr, exVpsc])
  exact ⟨hmain.1, hmain.2.2.2.2.1⟩

/-- C5 (counterexample): the zero-denominator branch of the spike-offset
interpolation is reachable and is not special-cased.  With `v_old = 2`
above `th_inf = 1` and a drive that exactly balances the leak
(`I = G*(v_old - E_l)`), the integrating Euler step computes
`v_new = v_old = 2`, takes the threshold branch and emits a spike whose
offset is computed by the unguarded formula with denominator
`v_new - v_old = 0`; under the embedding's total division (`x/0 = 0`) the
emitted offset is the full resolution 3/10 — neither "no crossing" nor
"offset 0". -/
theorem C5_zero_denominator_reachable :
    glif_lif.update_core (F := ℚ) id exP5 (3 / 10) exV5 exS5
        = (2, { t_ref_remaining_ := 1 / 1000, t_ref_total_ := 1 / 1000 },
            some (3 / 10))
      ∧ exS5.V_m_ = 2 ∧ exP5.th_inf_ = 1 ∧ (3 / 10 : ℚ) ≠ 0 := by
  refine ⟨?_, rfl, rfl, by norm_num⟩
  norm_num [glif_lif.update_core, glif_lif.voltage_dynamics, spike_offset,
    exP5, exV5, exS5]

/-- C5 (amended): the interpolation division is not guarded.  Whenever a
non-refractory step computes `v_new = v_old` while the voltage is already
above threshold, the threshold branch is taken and the spike offset is the
unguarded formula evaluated with a zero denominator: with the embedding's
total division (`x/0 = 0`) the emitted offset equals the full resolution
`res` (and a spike IS emitted), so no documented "no crossing / offset 0"
fallback exists; the computation is total in the embedding (no crash). -/
theorem C5_amended {F : Type} [LinearOrderedField F]
    (expf : F → F) (P : glif_lif.Parameters_ F) (res : F)
    (V : glif_lif.Variables_ F) (S : glif_lif.State_ F)
    (h1 : ¬V.t_ref_remaining_ > 0)
    (h2 : glif_lif.voltage_dynamics expf P (res * (1 / 1000)) S = S.V_m_)
    (h3 : S.V_m_ > P.th_inf_) :
    glif_lif.update_core expf P res V S
      = (S.V_m_, { V with t_ref_remaining_ := V.t_ref_total_ }, some res) := by
  simp only [glif_lif.update_core, if_neg h1, h2, if_pos h3, spike_offset]
  rw [sub_self, div_zero, sub_zero, one_mul]

/-- Witness for C5 (amended) at the concrete zero-drive configuration. -/
theorem C5_witness :
    glif_lif.update_core (F := ℚ) id exP5 (3 / 10) exV5 exS5
      = (exS5.V_m_, { exV5 with t_ref_remaining_ := exV5.t_ref_total_ },
          some (3 / 10)) :=
  C5_amended id exP5 (3 / 10) exV5 exS5 (by norm_num [exV5])
    (by norm_num [glif_lif.voltage_dynamics, exP5, exS5])
    (by norm_num [exP5, exS5])

/-- C6 (counterexample): `refractory_remaining` is NOT always ≥ 0 in
reachable states.  Starting from the calibrated initial state of `exP`
(`t_ref_remaining_ = 0`, `t_ref_total_ = 1/1000` s) with resolution 0.3 ms
(dt = 3/10000 s), a current pulse drives a spike at the second lag, and the
four following refractory steps count 1/1000 down through 7/10000, 4/10000,
1/10000 to -1/5000 < 0, where it stays. -/
theorem C6_negative_refractory_remaining :
    (glif_lif.run (F := ℚ) id exP (3 / 10) exSV exCurrents).2.t_ref_remaining_
        = -(1 / 5000)
      ∧ (glif_lif.run (F := ℚ) id exP (3 / 10) exSV
          exCurrents).2.t_ref_remaining_ < 0 := by
  constructor <;>
    norm_num [glif_lif.run, glif_lif.step, glif_lif.update_step,
      glif_lif.update_core, glif_lif.voltage_dynamics, glif_lif.calibrate,
      spike_offset, exP, exSV, exCurrents]

/-- C6 (amended): calibrate resets `refractory_remaining` to 0; every step
taken while `refractory_remaining > 0` decrements it by exactly the step
size (`dt = res/1000` in the plain variant's seconds) and the decremented
value stays above `-dt`; but the counter is not always ≥ 0 — at the
refractory-exit step it becomes negative whenever the remaining time is not
an exact multiple of the step size. -/
theorem C6_amended {F : Type} [LinearOrderedField F]
    (expf : F → F) (P : glif_lif.Parameters_ F) (res : F)
    (V : glif_lif.Variables_ F) (S : glif_lif.State_ F) (c : F)
    (h : V.t_ref_remaining_ > 0) :
    ((glif_lif.update_step expf P res V S c).2.1.t_ref_remaining_
        = V.t_ref_remaining_ - res * (1 / 1000))
      ∧ (glif_lif.update_step expf P res V S c).2.1.t_ref_remaining_
        > -(res * (1 / 1000))
      ∧ (glif_lif.calibrate P).t_ref_remaining_ = 0 := by
  have h1 := lif_update_core_refractory expf P res V S h
  refine ⟨?_, ?_, rfl⟩
  · simp only [glif_lif.update_step]
    rw [h1]
    split <;> rfl
  · simp only [glif_lif.update_step]
    rw [h1]
    have hgt : V.t_ref_remaining_ - res * (1 / 1000) > -(res * (1 / 1000)) := by
      linarith
    split <;> exact hgt

/-- Witness for C6 (amended) at a concrete refractory state. -/
theorem C6_witness :
    (glif_lif.update_step (F := ℚ) id exP (3 / 10)
        { t_ref_remaining_ := 7 / 10000, t_ref_total_ := 1 / 1000 }
        { V_m_ := 2, I_ := 0 } 0).2.1.t_ref_remaining_
      > -((3 / 10) * (1 / 1000)) :=
  (C6_amended id exP (3 / 10)
    { t_ref_remaining_ := 7 / 10000, t_ref_total_ := 1 / 1000 }
    { V_m_ := 2, I_ := 0 } 0 (by norm_num)).2.1

/-- C8: on every psc update step — refractory steps included — the
per-receptor synaptic filter recursion is advanced using the spike value
drained from the per-receptor buffer at this lag (the filter update is
outside the refractory branch, glif_lif_psc.cpp lines 316-328), and on any
non-refractory step the membrane update adds the synaptic contribution
`Σ_i P31_[i]*y1_[i] + P32_[i]*y2_[i]` (lines 295-298): refractoriness
suspends only the voltage dynamics, never the synaptic filter, so spikes
delivered while refractory accumulate into `y1_`/`y2_` and contribute to
the voltage once integration resumes. -/
theorem C8_filter_advances_during_refractory {F : Type} [LinearOrderedField F]
    (P : glif_lif_psc.Parameters_ F) (res : F)
    (V : glif_lif_psc.Variables_ F) (S : glif_lif_psc.State_ F)
    (spk : List F) (c : F) :
    ((glif_lif_psc.update_step P res V S spk c).1.y1_
        = (List.range P.n_receptors_).map fun i =>
            V.P11_.getD i 0 * S.y1_.getD i 0
              + V.PSCInitialValues_.getD i 0 * spk.getD i 0)
      ∧ ((glif_lif_psc.update_step P res V S spk c).1.y2_
        = (List.range P.n_receptors_).map fun i =>
            V.P21_.getD i 0 * S.y1_.getD i 0 + V.P22_.getD i 0 * S.y2_.getD i 0)
      ∧ (V.t_ref_remaining_ ≤ 0 →
        (glif_lif_psc.update_step P res V S spk c).1.V_m_
          = (if V.method_ = 0 then
              S.V_m_ + res * (S.I_ - P.G_ * (S.V_m_ - P.E_l_)) / P.C_m_
            else if V.method_ = 1 then
              S.V_m_ * V.P33_ + (S.I_ + P.G_ * P.E_l_) * V.P30_
            else S.V_m_)
            + ((List.range P.n_receptors_).map fun i =>
                V.P31_.getD i 0 * S.y1_.getD i 0
                  + V.P32_.getD i 0 * S.y2_.getD i 0).sum) := by
  refine ⟨?_, ?_, fun hle => ?_⟩
  · simp [glif_lif_psc.update_step, glif_lif_psc.alpha_psc_step, List.map_map,
      Function.comp]
  · simp [glif_lif_psc.update_step, glif_lif_psc.alpha_psc_step, List.map_map,
      Function.comp]
  · simp only [glif_lif_psc.update_step, glif_lif_psc.update_core,
      if_neg (not_lt.mpr hle)]
    repeat' split
    all_goals rfl

/-- Witness for C8 at a concrete non-refractory single-receptor state. -/
theorem C8_witness :
    (glif_lif_psc.update_step (F := ℚ) exPscSpiking (1 / 10) exVpsc exSpsc
        [1] 7).1.V_m_
      = (if exVpsc.method_ = 0 then
          exSpsc.V_m_ + (1 / 10) * (exSpsc.I_
            - exPscSpiking.G_ * (exSpsc.V_m_ - exPscSpiking.E_l_))
              / exPscSpiking.C_m_
        else if exVpsc.method_ = 1 then
          exSpsc.V_m_ * exVpsc.P33_
            + (exSpsc.I_ + exPscSpiking.G_ * exPscSpiking.E_l_) * exVpsc.P30_
        else exSpsc.V_m_)
        + ((List.range exPscSpiking.n_receptors_).map fun i =>
            exVpsc.P31_.getD i 0 * exSpsc.y1_.getD i 0
              + exVpsc.P32_.getD i 0 * exSpsc.y2_.getD i 0).sum :=
  (C8_filter_advances_during_refractory exPscSpiking (1 / 10) exVpsc exSpsc
    [1] 7).2.2 (by norm_num [exVpsc])

/-- Helper: any spike the plain variant emits on a step carries the
linear-interpolation offset computed from the threshold, the pre-step
voltage and the newly computed voltage. -/
theorem lif_emitted_offset_eq {F : Type} [LinearOrderedField F]
    (expf : F → F) (P : glif_lif.Parameters_ F) (res : F)
    (V : glif_lif.Variables_ F) (S : glif_lif.State_ F) (o : F)
    (hemit : (glif_lif.update_core expf P res V S).2.2 = some o) :
    o = spike_offset P.th_inf_ S.V_m_
        (glif_lif.update_core expf P res V S).1 res := by
  by_cases hA : V.t_ref_remaining_ > 0
  · rw [lif_update_core_refractory expf P res V S hA] at hemit
    split at hemit
    · exact Option.noConfusion hemit
    · exact Option.noConfusion hemit
  · simp only [glif_lif.update_core, if_neg hA] at hemit ⊢
    by_cases hB :
        glif_lif.voltage_dynamics expf P (res * (1 / 1000)) S > P.th_inf_
    · rw [if_pos hB] at hemit ⊢
      exact (Option.some_inj.mp hemit).symm
    · rw [if_neg hB] at hemit
      exact Option.noConfusion hemit

/-- Helper: any spike the psc variant emits on a step carries the
linear-interpolation offset computed from the threshold, the pre-step
voltage and the newly computed voltage. -/
theorem psc_emitted_offset_eq {F : Type} [LinearOrderedField F]
    (P : glif_lif_psc.Parameters_ F) (res : F)
    (V : glif_lif_psc.Variables_ F) (S : glif_lif_psc.State_ F) (o : F)
    (hemit : (glif_lif_psc.update_core P res V S).2.2 = some o) :
    o = spike_offset P.th_inf_ S.V_m_
        (glif_lif_psc.update_core P res V S).1 res := by
  by_cases hA : V.t_ref_remaining_ > 0
  · rw [psc_update_core_refractory P res V S hA] at hemit
    split at hemit
    · exact Option.noConfusion hemit
    · exact Option.noConfusion hemit
  · simp only [glif_lif_psc.update_core, if_neg hA] at hemit ⊢
    by_cases hB :
        (if V.method_ = 0 then
          S.V_m_ + res * (S.I_ - P.G_ * (S.V_m_ - P.E_l_)) / P.C_m_
        else if V.method_ = 1 then
          S.V_m_ * V.P33_ + (S.I_ + P.G_ * P.E_l_) * V.P30_
        else S.V_m_)
          + ((List.range P.n_receptors_).map fun i =>
              V.P31_.getD i 0 * S.y1_.getD i 0
                + V.P32_.getD i 0 * S.y2_.getD i 0).sum > P.th_inf_
    · rw [if_pos hB] at hemit ⊢
      exact (Option.some_inj.mp hemit).symm
    · rw [if_neg hB] at hemit
      exact Option.noConfusion hemit

/-- C3 (counterexample): the interpolated spike offset does NOT tend to the
step size as the crossing occurs arbitrarily late within the step — it
tends to 0 there (offset = (1 - lateness)·step).  Formally, the late-limit
formalization is false: for ε = 1/2 and any δ > 0 there is a crossing with
lateness above 1 - δ whose offset stays at distance ≥ 1/2 from the unit
step size. -/
theorem C3_late_crossing_counterexample : ¬spikeOffsetLateLimit := by
  intro hcl
  obtain ⟨δ, hδ, H⟩ := hcl (1 / 2) (by norm_num)
  have hm0 : 0 < min δ 1 := lt_min hδ one_pos
  have hm1 : min δ 1 ≤ 1 := min_le_right δ 1
  have hmδ : min δ 1 ≤ δ := min_le_left δ 1
  have hnum : (0 : ℚ) - -(1 - min δ 1 / 2) = 1 - min δ 1 / 2 := by ring
  have hden : min δ 1 / 2 - -(1 - min δ 1 / 2) = 1 := by ring
  have key := H 0 (-(1 - min δ 1 / 2)) (min δ 1 / 2)
    (by linarith) (by linarith)
    (by rw [hnum, hden, div_one]; linarith)
  have hoff : spike_offset (0 : ℚ) (-(1 - min δ 1 / 2)) (min δ 1 / 2) 1
      = min δ 1 / 2 := by
    simp only [spike_offset]
    rw [hnum, hden, div_one]
    ring
  rw [hoff, abs_of_nonpos (by linarith)] at key
  linarith

/-- C3 (amended): any spike emitted during an integrating step (in either
variant) carries the offset `(1 - (th - v_old)/(v_new - v_old)) * res`; for
a genuine crossing (`v_old ≤ th < v_new`, step size ≥ 0) the offset lies in
`[0, res]`; the formula evaluates to 0 when `v_new = th` exactly; and the
offset tends to the step size as the crossing occurs arbitrarily *early*
within the step (lateness `(th - v_old)/(v_new - v_old) ≤ δ` forces
`offset ≥ (1 - δ)·res`), not as it occurs arbitrarily late. -/
theorem C3_spike_offset_amended {F : Type} [LinearOrderedField F]
    (expf : F → F) (P : glif_lif.Parameters_ F) (res : F)
    (V : glif_lif.Variables_ F) (S : glif_lif.State_ F) (o : F)
    (Pp : glif_lif_psc.Parameters_ F) (resp : F)
    (Vp : glif_lif_psc.Variables_ F) (Sp : glif_lif_psc.State_ F) (op : F)
    (th v_old v_new r δ : F)
    (hemit : (glif_lif.update_core expf P res V S).2.2 = some o)
    (hemitp : (glif_lif_psc.update_core Pp resp Vp Sp).2.2 = some op)
    (h1 : v_old ≤ th) (h2 : th < v_new) (hr : 0 ≤ r) :
    (o = spike_offset P.th_inf_ S.V_m_
        (glif_lif.update_core expf P res V S).1 res)
      ∧ (op = spike_offset Pp.th_inf_ Sp.V_m_
        (glif_lif_psc.update_core Pp resp Vp Sp).1 resp)
      ∧ 0 ≤ spike_offset th v_old v_new r
      ∧ spike_offset th v_old v_new r ≤ r
      ∧ (∀ v : F, v ≠ th → spike_offset th v th r = 0)
      ∧ ((th - v_old) / (v_new - v_old) ≤ δ →
          (1 - δ) * r ≤ spike_offset th v_old v_new r) := by
  have hd : 0 < v_new - v_old := by linarith
  have hq0 : 0 ≤ (th - v_old) / (v_new - v_old) :=
    div_nonneg (by linarith) hd.le
  have hq1 : (th - v_old) / (v_new - v_old) ≤ 1 :=
    (div_le_one hd).mpr (by linarith)
  refine ⟨lif_emitted_offset_eq expf P res V S o hemit,
    psc_emitted_offset_eq Pp resp Vp Sp op hemitp, ?_, ?_, ?_, ?_⟩
  · exact mul_nonneg (by linarith) hr
  · have hle : (1 - (th - v_old) / (v_new - v_old)) * r ≤ 1 * r :=
      mul_le_mul_of_nonneg_right (by linarith) hr
    simpa [spike_offset] using hle
  · intro v hv
    simp only [spike_offset]
    rw [div_self (sub_ne_zero.mpr (Ne.symm hv)), sub_self, zero_mul]
  · intro hlate
    exact mul_le_mul_of_nonneg_right (by linarith) hr

/-- Witness for C3 (amended): at the concrete spiking configurations of
both variants and a concrete crossing. -/
theorem C3_witness :
    ((3 / 10 : ℚ) = spike_offset exP5.th_inf_ exS5.V_m_
        (glif_lif.update_core id exP5 (3 / 10) exV5 exS5).1 (3 / 10))
      ∧ ((2 / 25 : ℚ) = spike_offset exPscSpiking.th_inf_ exSpsc.V_m_
        (glif_lif_psc.update_core exPscSpiking (1 / 10) exVpsc exSpsc).1
          (1 / 10))
      ∧ (0 : ℚ) ≤ spike_offset (1 : ℚ) 0 2 1 := by
  have hmain := C3_spike_offset_amended (F := ℚ) id exP5 (3 / 10) exV5 exS5
    (3 / 10) exPscSpiking (1 / 10) exVpsc exSpsc (2 / 25) 1 0 2 1 (1 / 2)
    (by norm_num [glif_lif.update_core, glif_lif.voltage_dynamics,
      spike_offset, exP5, exV5, exS5])
    (by norm_num [glif_lif_psc.update_core, glif_lif_psc.Parameters_.n_receptors_,
      spike_offset, List.range_succ, List.range_zero, exPscSpiking, exVpsc,
      exSpsc])
    (by norm_num) (by norm_num) (by norm_num)
  exact ⟨hmain.1, hmain.2.1, hmain.2.2.1⟩

/-- Helper: a refractory step of the plain variant is insensitive to the
injected-current field of the state: the refractory branch never reads
`S_.I_`, and the field is unconditionally overwritten at the end of the
step. -/
theorem glif_lif.update_step_refractory_I_irrel {F : Type}
    [LinearOrderedField F]
    (expf : F → F) (P : glif_lif.Parameters_ F) (res : F)
    (V : glif_lif.Variables_ F) (v i j c : F)
    (h : V.t_ref_remaining_ > 0) :
    glif_lif.update_step expf P res V { V_m_ := v, I_ := i } c
      = glif_lif.update_step expf P res V { V_m_ := v, I_ := j } c := by
  simp only [glif_lif.update_step, glif_lif.update_core, if_pos h]

/-- Helper: the whole observable future of the plain variant is insensitive
to the injected-current field when the next step is refractory. -/
theorem glif_lif.trace_refractory_I_irrel {F : Type} [LinearOrderedField F]
    (expf : F → F) (P : glif_lif.Parameters_ F) (res : F)
    (V : glif_lif.Variables_ F) (v i j : F) (cs : List F)
    (h : V.t_ref_remaining_ > 0) :
    glif_lif.trace expf P res ({ V_m_ := v, I_ := i }, V) cs
      = glif_lif.trace expf P res ({ V_m_ := v, I_ := j }, V) cs := by
  cases cs with
  | nil => rfl
  | cons c t =>
    simp only [glif_lif.trace, glif_lif.out, glif_lif.step]
    rw [glif_lif.update_step_refractory_I_irrel expf P res V v i j c h]

/-- C9: two plain-variant runs that differ only in the current-buffer value
drained at a lag whose immediately following lag is spent refractory have
identical observable trajectories (recorded membrane voltages and spike
outputs at every lag): the drained value is stored into `injected_current`,
which is read only by the next step's voltage dynamics and is
unconditionally overwritten at the end of that next step — a refractory
next step never reads it. -/
theorem C9_refractory_current_noninterference {F : Type}
    [LinearOrderedField F]
    (expf : F → F) (P : glif_lif.Parameters_ F) (res : F)
    (sv : glif_lif.State_ F × glif_lif.Variables_ F)
    (cs : List F) (k : ℕ) (x : F)
    (h : (glif_lif.run expf P res sv
        (cs.take (k + 1))).2.t_ref_remaining_ > 0) :
    glif_lif.trace expf P res sv cs
      = glif_lif.trace expf P res sv (cs.set k x) := by
  induction cs generalizing sv k with
  | nil => rfl
  | cons c t ih =>
    cases k with
    | zero =>
      simp only [List.set, glif_lif.trace]
      congr 1
      exact glif_lif.trace_refractory_I_irrel expf P res
        ((glif_lif.update_core expf P res sv.2 sv.1).2.1)
        ((glif_lif.update_core expf P res sv.2 sv.1).1) c x t h
    | succ k =>
      simp only [List.set, glif_lif.trace]
      congr 1
      exact ih (glif_lif.step expf P res sv c) k h

/-- Witness for C9: a concrete two-run comparison where the differing
current value (999 instead of 0 at position 1) is drained at the lag
preceding a refractory lag, with identical traces. -/
theorem C9_witness :
    (glif_lif.run (F := ℚ) id exP (3 / 10) exSV
        (exC9.take 2)).2.t_ref_remaining_ > 0
      ∧ glif_lif.trace (F := ℚ) id exP (3 / 10) exSV exC9
        = glif_lif.trace (F := ℚ) id exP (3 / 10) exSV (exC9.set 1 999) := by
  have hh : (glif_lif.run (F := ℚ) id exP (3 / 10) exSV
      (exC9.take 2)).2.t_ref_remaining_ > 0 := by
    norm_num [glif_lif.run, glif_lif.step, glif_lif.update_step,
      glif_lif.update_core, glif_lif.voltage_dynamics, glif_lif.calibrate,
      spike_offset, exP, exSV, exC9]
  exact ⟨hh,
    C9_refractory_current_noninterference id exP (3 / 10) exSV exC9 1 999 hh⟩

end allen
